import Mathlib

/-!
Shallow embedding of the meteor impact-simulation engine and its HTTP
simulation handler, with theorems checking the specified properties.

Sources embedded:
- `src/backend/simulation.py` (`ImpactSimulator`): energy, crater, seismic,
  tsunami, atmospheric and casualty stages.
- `src/api/simulation.py` (`handler`): the POST simulation endpoint
  (`simulate_impact`) and `classify_impact`.

Python floats are modelled as real numbers; Python `int(x)` (truncation
toward zero) is modelled exactly; `math.radians`, `math.sin`, `math.log10`,
`math.sqrt` and `**` become `Real.pi / 180` scaling, `Real.sin`,
`Real.logb 10`, `Real.sqrt` and `Real.rpow`.
-/

namespace Meteor

noncomputable section

/-- Python `int(x)` for a float: truncation toward zero. -/
def pytrunc (x : ℝ) : ℤ := if x < 0 then -⌊-x⌋ else ⌊x⌋

/-- `ImpactSimulator.TNT_JOULES = 4.184e9` (joules per kiloton of TNT). -/
def TNT_JOULES : ℝ := 4.184e9

/-- Embedding of `ImpactSimulator.calculate_impact_energy` from
`src/backend/simulation.py` (lines 18-59).  Returns
`(energy_joules, megatons_tnt)`. -/
def calculate_impact_energy (size density velocity angle : ℝ) : ℝ × ℝ :=
  let radius := size / 2
  let volume := (4 / 3) * Real.pi * radius ^ 3
  let mass := volume * density
  let velocity_ms := velocity * 1000
  let ablation_fraction : ℝ :=
    if size < 50 then 0.9
    else if size < 100 then 0.7
    else if size < 500 then 0.3
    else 0.1
  let angle_rad := angle * (Real.pi / 180)
  let angle_factor := Real.sin angle_rad
  let effective_mass := mass * (1 - ablation_fraction)
  let energy_joules := 0.5 * effective_mass * velocity_ms ^ 2 * angle_factor
  let megatons_tnt := energy_joules / (TNT_JOULES * 1e6)
  (energy_joules, megatons_tnt)

/-- Embedding of `ImpactSimulator.calculate_crater_size` from
`src/backend/simulation.py` (lines 61-116).  Returns `(diameter, depth)`
in meters. -/
def calculate_crater_size (size density velocity : ℝ) (is_water : Bool) : ℝ × ℝ :=
  let projectile_radius := size / 2
  let velocity_ms := velocity * 1000
  let target_density : ℝ := if is_water then 1000 else 2700
  let target_strength : ℝ := if is_water then 0 else 1e7
  let gravity : ℝ := 9.81
  let density_ratio := density / target_density
  let gravity_term := velocity_ms ^ 2 / (gravity * projectile_radius * 2)
  let strength_term : ℝ :=
    if is_water then 1
    else target_strength / (target_density * gravity * projectile_radius * 2)
  let transient_radius :=
    if is_water then
      projectile_radius * 8.0 * density_ratio ^ (0.44 : ℝ) * gravity_term ^ (0.22 : ℝ)
    else
      projectile_radius * 1.6 * density_ratio ^ (0.44 : ℝ) * gravity_term ^ (0.22 : ℝ) *
        strength_term ^ (-0.11 : ℝ)
  let final_radius :=
    if transient_radius > 2000 then transient_radius * 1.25
    else transient_radius * 1.0
  let max_radius := projectile_radius * 50
  let final_radius := min final_radius max_radius
  let diameter := final_radius * 2
  let depth := diameter / (if diameter > 4000 then 8 else 5)
  (diameter, depth)

/-- Embedding of `ImpactSimulator.calculate_seismic_effects` from
`src/backend/simulation.py` (lines 118-161).  Returns
`(magnitude, radius_km)`. -/
def calculate_seismic_effects (energy_joules : ℝ) : ℝ × ℝ :=
  let seismic_efficiency : ℝ := 1e-5
  let seismic_energy := energy_joules * seismic_efficiency
  let magnitude : ℝ :=
    if seismic_energy ≤ 0 then 0
    else max 0 (min ((Real.logb 10 seismic_energy - 5.87) / 1.5) 10)
  let radius : ℝ :=
    if magnitude < 3 then 10
    else if magnitude < 5 then 50 * (magnitude - 2)
    else if magnitude < 7 then 100 * (magnitude - 3)
    else min 2000 (300 * (magnitude - 5))
  (magnitude, radius)

/-- Embedding of `ImpactSimulator.calculate_tsunami_effects` from
`src/backend/simulation.py` (lines 163-182).  Returns
`(wave_height_m, affected_radius_km)`. -/
def calculate_tsunami_effects (energy_mt : ℝ) : ℝ × ℝ :=
  let wave_height := (energy_mt / 1000) ^ (0.25 : ℝ) * 10
  let wave_height := min wave_height 500
  let affected_radius := Real.sqrt energy_mt * 15
  let affected_radius := min affected_radius 10000
  (wave_height, affected_radius)

/-- Embedding of `ImpactSimulator.calculate_atmospheric_effects` from
`src/backend/simulation.py` (lines 184-204).  Returns
`(fireball_radius, thermal_radiation, overpressure)` in km. -/
def calculate_atmospheric_effects (energy_mt : ℝ) : ℝ × ℝ × ℝ :=
  (energy_mt ^ (0.4 : ℝ) * 0.28,
   energy_mt ^ (0.41 : ℝ) * 2.2,
   energy_mt ^ (0.33 : ℝ) * 2.2)

/-- Embedding of `ImpactSimulator.estimate_casualties` from
`src/backend/simulation.py` (lines 206-228).  Returns
`(estimated_casualties, affected_population)`. -/
def estimate_casualties (overpressure_radius : ℝ) (population_density : ℝ) : ℤ × ℤ :=
  let affected_area := Real.pi * overpressure_radius ^ 2
  let affected_population := pytrunc (affected_area * population_density)
  let casualty_rate : ℝ := 0.5
  let estimated_casualties := pytrunc ((affected_population : ℝ) * casualty_rate)
  (estimated_casualties, affected_population)

/-- The numeric inputs the POST handler (`src/api/simulation.py`) extracts
from the request body, plus the echoed target location. -/
structure SimRequest where
  diameter : ℝ
  velocity : ℝ
  angle : ℝ
  density : ℝ
  target_location : ℝ × ℝ

/-- The `results` block built by `handler.simulate_impact`
(`src/api/simulation.py`, lines 99-109). -/
structure SimResults where
  mass_kg : ℝ
  kinetic_energy_joules : ℝ
  tnt_equivalent_tons : ℝ
  energy_megatons : ℝ
  crater_diameter_m : ℝ
  damage_radius_km : ℝ
  estimated_casualties : ℤ
  affected_population : ℤ
  impact_classification : String

/-- The response of `handler.simulate_impact`: the echoed `input` block and
the computed `results` block (the static `warnings` and
`reference_comparisons` blocks carry no computed data and are omitted). -/
structure SimResponse where
  input : SimRequest
  results : SimResults

/-- Embedding of `handler.classify_impact` from `src/api/simulation.py`
(lines 123-138). -/
def classify_impact (energy_megatons : ℝ) : String :=
  if energy_megatons < 0.001 then "Minimal damage"
  else if energy_megatons < 0.1 then "Local damage (building destruction)"
  else if energy_megatons < 10 then "City-wide damage"
  else if energy_megatons < 1000 then "Regional devastation"
  else if energy_megatons < 100000 then "Continental impact"
  else if energy_megatons < 100000000 then "Global climate effects"
  else "Mass extinction event"

/-- Embedding of `handler.simulate_impact` from `src/api/simulation.py`
(lines 58-121). -/
def simulate_impact (rq : SimRequest) : SimResponse :=
  let diameter := rq.diameter
  let velocity := rq.velocity
  let density := rq.density
  let mass := (4 / 3) * Real.pi * (diameter / 2) ^ 3 * density
  let velocity_ms := velocity * 1000
  let kinetic_energy := 0.5 * mass * velocity_ms ^ 2
  let tnt_equivalent := kinetic_energy / 4.184e9
  let energy_megatons := tnt_equivalent / 1e6
  let crater_diameter : ℝ :=
    if energy_megatons > 0 then 1.161 * energy_megatons ^ (0.22 : ℝ) else 0
  let damage_radius_km : ℝ :=
    if energy_megatons > 0 then 0.28 * energy_megatons ^ ((1 : ℝ) / 3) else 0
  let population_affected : ℤ :=
    if damage_radius_km > 0 then pytrunc (damage_radius_km ^ 2 * Real.pi * 1000) else 0
  let casualty_rate : ℝ := 0.5
  let estimated_casualties : ℤ :=
    if population_affected > 0 then pytrunc ((population_affected : ℝ) * casualty_rate) else 0
  { input := rq
    results :=
      { mass_kg := mass
        kinetic_energy_joules := kinetic_energy
        tnt_equivalent_tons := tnt_equivalent
        energy_megatons := energy_megatons
        crater_diameter_m := crater_diameter
        damage_radius_km := damage_radius_km
        estimated_casualties := estimated_casualties
        affected_population := population_affected
        impact_classification := classify_impact energy_megatons } }

/-- The two branches of `handler.do_POST` (`src/api/simulation.py`,
lines 29-49): a 200 response carrying the simulation result, or the 500
error response produced by the `except` branch. -/
inductive ApiResponse where
  | ok (response : SimResponse)
  | err (error : String)

/-- Embedding of the POST path of `handler.do_POST`
(`src/api/simulation.py`, lines 29-49) applied to a parsed numeric request:
`simulate_impact` is built from total arithmetic (every power is guarded or
applied to a nonnegative base), so the `except` branch that would produce
the 500 `ApiResponse.err` response is never taken for a parsed request. -/
def do_POST_sim (rq : SimRequest) : ApiResponse :=
  ApiResponse.ok (simulate_impact rq)

/-- The validated input record described by the spec (section 3,
`ImpactParameters`). -/
structure ImpactParameters where
  diameter_m : ℝ
  density_kg_m3 : ℝ
  velocity_km_s : ℝ
  entry_angle_deg : ℝ
  target_is_water : Bool
  population_density_per_km2 : ℝ

/-- The full per-stage output bundle of a simulation run (spec section 6):
energy `(joules, megatons)`, crater `(diameter, depth)`, seismic
`(magnitude, radius)`, optional tsunami `(wave height, radius)`,
atmospheric `(fireball, thermal, overpressure)` radii, and casualties
`(estimated, affected)`. -/
structure SimulationOutput where
  energy : ℝ × ℝ
  crater : ℝ × ℝ
  seismic : ℝ × ℝ
  tsunami : Option (ℝ × ℝ)
  atmospheric : ℝ × ℝ × ℝ
  casualties : ℤ × ℤ

/-- Modelled from the spec: the pipeline orchestrator (the
`backend/routers/simulation` module imported by `src/api/index.py` is not
among the sources).  Spec section 2: "energy → crater → seismic →
tsunami/atmospheric → casualties"; section 4.4 and section 6: the tsunami
stage runs only for water targets and is absent (`tsunami?`) otherwise;
the casualty stage consumes the atmospheric stage's overpressure radius.
Each stage is the corresponding `ImpactSimulator` function from
`src/backend/simulation.py`. -/
def simulate (p : ImpactParameters) : SimulationOutput :=
  let e := calculate_impact_energy p.diameter_m p.density_kg_m3 p.velocity_km_s
    p.entry_angle_deg
  { energy := e
    crater := calculate_crater_size p.diameter_m p.density_kg_m3 p.velocity_km_s
      p.target_is_water
    seismic := calculate_seismic_effects e.1
    tsunami := if p.target_is_water then some (calculate_tsunami_effects e.2) else none
    atmospheric := calculate_atmospheric_effects e.2
    casualties := estimate_casualties (calculate_atmospheric_effects e.2).2.2
      p.population_density_per_km2 }

/-- The ablation step function as the spec states it (section 4.1):
diameter `<50 → 0.9`, `<100 → 0.7`, `<500 → 0.3`, otherwise `0.1`. -/
def ablation_spec (diameter_m : ℝ) : ℝ :=
  if diameter_m < 50 then 0.9
  else if diameter_m < 100 then 0.7
  else if diameter_m < 500 then 0.3
  else 0.1

/-- Helper: the rim-collapse step `if t > 2000 then t * 1.25 else t * 1.0`
followed by the clamp `min _ m` and doubling is monotone in the transient
radius `t`. -/
theorem craterFinal_mono {t₁ t₂ m : ℝ} (h : t₁ ≤ t₂) :
    min (if t₁ > 2000 then t₁ * 1.25 else t₁ * 1.0) m * 2 ≤
      min (if t₂ > 2000 then t₂ * 1.25 else t₂ * 1.0) m * 2 := by
  have hstep : (if t₁ > 2000 then t₁ * 1.25 else t₁ * 1.0) ≤
      (if t₂ > 2000 then t₂ * 1.25 else t₂ * 1.0) := by
    split_ifs with h₁ h₂ h₂ <;> linarith
  exact mul_le_mul_of_nonneg_right (min_le_min hstep (le_refl m)) (by norm_num)

/-- Helper: the crater diameter (2 times clamped final radius) is at most
2 times the clamp bound `r * 50`. -/
theorem craterTail_diam_le (t r : ℝ) :
    min (if t > 2000 then t * 1.25 else t * 1.0) (r * 50) * 2 ≤ r * 50 * 2 :=
  mul_le_mul_of_nonneg_right (min_le_right _ _) (by norm_num)

/-- Helper: the crater diameter is nonnegative when the transient radius
and the projectile radius are. -/
theorem craterTail_nonneg (t r : ℝ) (ht : 0 ≤ t) (hr : 0 ≤ r) :
    0 ≤ min (if t > 2000 then t * 1.25 else t * 1.0) (r * 50) * 2 := by
  apply mul_nonneg _ (by norm_num)
  apply le_min _ (by positivity)
  split_ifs <;> linarith

/-- Helper: dividing a nonnegative diameter by the 8-or-5 depth ratio
stays at most the diameter. -/
theorem div_depth_ratio_le_self {D : ℝ} (hD : 0 ≤ D) :
    D / (if D > 4000 then (8 : ℝ) else 5) ≤ D := by
  split_ifs
  · exact div_le_self hD (by norm_num)
  · exact div_le_self hD (by norm_num)

/-- C4: for positive diameter, density and velocity, on water and rock
alike, the crater diameter is at most 50 times the projectile diameter and
the depth is at most the diameter. -/
theorem C4_crater_bounds (size density velocity : ℝ) (w : Bool)
    (hs : 0 < size) (hd : 0 < density) (hv : 0 < velocity) :
    (calculate_crater_size size density velocity w).1 ≤ 50 * size ∧
      (calculate_crater_size size density velocity w).2 ≤
        (calculate_crater_size size density velocity w).1 := by
  cases w <;> simp only [calculate_crater_size, reduceIte] <;> constructor
  · exact le_trans (craterTail_diam_le _ _) (le_of_eq (by ring))
  · exact div_depth_ratio_le_self (craterTail_nonneg _ _ (by positivity) (by positivity))
  · exact le_trans (craterTail_diam_le _ _) (le_of_eq (by ring))
  · exact div_depth_ratio_le_self (craterTail_nonneg _ _ (by positivity) (by positivity))

/-- C4 witness: the bounds at a small rock impact. -/
theorem C4_crater_bounds_witness :
    (calculate_crater_size 2 1000 1 false).1 ≤ 50 * 2 ∧
      (calculate_crater_size 2 1000 1 false).2 ≤
        (calculate_crater_size 2 1000 1 false).1 :=
  C4_crater_bounds 2 1000 1 false (by norm_num) (by norm_num) (by norm_num)

/-- C5: for every nonnegative impact energy, the seismic magnitude lies in
the interval from 0 to 10, and whenever the derived seismic energy
(`energy_joules * 1e-5`) is nonpositive the magnitude is exactly 0 (the
nonpositive-logarithm case is a branch, not a fault: the embedded function
is total). -/
theorem C5_seismic_magnitude_bounds (E : ℝ) (hE : 0 ≤ E) :
    0 ≤ (calculate_seismic_effects E).1 ∧ (calculate_seismic_effects E).1 ≤ 10 ∧
      (E * 1e-5 ≤ 0 → (calculate_seismic_effects E).1 = 0) := by
  simp only [calculate_seismic_effects]
  refine ⟨?_, ?_, fun hle => if_pos hle⟩
  · split_ifs with h
    · norm_num
    · exact le_max_left 0 _
  · split_ifs with h
    · norm_num
    · exact max_le (by norm_num) (min_le_right _ 10)

/-- C5 witness: at zero energy the magnitude is exactly 0 (hence within
bounds). -/
theorem C5_seismic_magnitude_bounds_witness :
    0 ≤ (calculate_seismic_effects 0).1 ∧ (calculate_seismic_effects 0).1 ≤ 10 ∧
      (calculate_seismic_effects 0).1 = 0 :=
  ⟨(C5_seismic_magnitude_bounds 0 le_rfl).1,
   (C5_seismic_magnitude_bounds 0 le_rfl).2.1,
   (C5_seismic_magnitude_bounds 0 le_rfl).2.2 (by norm_num)⟩

/-- Helper: the piecewise felt-radius formula is at least 10 for every
magnitude value. -/
theorem seismicRadius_ge_ten (m : ℝ) :
    10 ≤ if m < 3 then (10 : ℝ) else if m < 5 then 50 * (m - 2)
      else if m < 7 then 100 * (m - 3) else min 2000 (300 * (m - 5)) := by
  split_ifs with h₁ h₂ h₃
  · norm_num
  · push_neg at h₁; linarith
  · push_neg at h₁ h₂; linarith
  · push_neg at h₁ h₂ h₃
    exact le_min (by norm_num) (by linarith)

/-- C10: for every nonnegative impact energy the seismic affected radius is
at least 10 km (the detection floor). -/
theorem C10_seismic_radius_floor (E : ℝ) (hE : 0 ≤ E) :
    10 ≤ (calculate_seismic_effects E).2 := by
  simp only [calculate_seismic_effects]
  exact seismicRadius_ge_ten _

/-- C10 witness: a zero-energy impact still reports a 10 km radius. -/
theorem C10_seismic_radius_floor_witness : 10 ≤ (calculate_seismic_effects 0).2 :=
  C10_seismic_radius_floor 0 le_rfl

/-- C6: tsunami results are present in the simulation output exactly when
the target is water, and, when present, the wave height never exceeds
500 m and the affected radius never exceeds 10000 km. -/
theorem C6_tsunami_iff_water (p : ImpactParameters) :
    ((simulate p).tsunami.isSome ↔ p.target_is_water = true) ∧
      (simulate p).tsunami.elim True (fun t => t.1 ≤ 500 ∧ t.2 ≤ 10000) := by
  simp only [simulate]
  cases hp : p.target_is_water <;>
    simp [hp, calculate_tsunami_effects, min_le_right]

/-- C2: the energy stage returns
`0.5 * (sphere-volume * density) * (1 - ablation) * (velocity * 1000)^2 *
sin(angle in radians)` with the ablation step function of the spec; at 90
degrees the sine factor is 1, and the energy is strictly increasing in the
angle on the interval from 0 (exclusive) to 90 (inclusive). -/
theorem C2_energy_formula (d ρ v θ₁ θ₂ : ℝ) (hd : 0 < d) (hρ : 0 < ρ)
    (hv : 0 < v) (hθ₁ : 0 < θ₁) (hθ : θ₁ < θ₂) (hθ₂ : θ₂ ≤ 90) :
    ((calculate_impact_energy d ρ v θ₁).1 =
      0.5 * ((4 / 3) * Real.pi * (d / 2) ^ 3 * ρ) * (1 - ablation_spec d) *
        (v * 1000) ^ 2 * Real.sin (θ₁ * (Real.pi / 180))) ∧
    ((calculate_impact_energy d ρ v 90).1 =
      0.5 * ((4 / 3) * Real.pi * (d / 2) ^ 3 * ρ) * (1 - ablation_spec d) *
        (v * 1000) ^ 2) ∧
    (calculate_impact_energy d ρ v θ₁).1 < (calculate_impact_energy d ρ v θ₂).1 := by
  have habl : 0 < 1 - ablation_spec d := by
    unfold ablation_spec; split_ifs <;> norm_num
  have hform : ∀ θ : ℝ, (calculate_impact_energy d ρ v θ).1 =
      0.5 * ((4 / 3) * Real.pi * (d / 2) ^ 3 * ρ) * (1 - ablation_spec d) *
        (v * 1000) ^ 2 * Real.sin (θ * (Real.pi / 180)) := by
    intro θ
    simp only [calculate_impact_energy, ablation_spec]
    split_ifs <;> ring
  have hpi := Real.pi_pos
  refine ⟨hform θ₁, ?_, ?_⟩
  · rw [hform 90, show (90 : ℝ) * (Real.pi / 180) = Real.pi / 2 by ring,
      Real.sin_pi_div_two, mul_one]
  · rw [hform θ₁, hform θ₂]
    have hC : 0 < 0.5 * ((4 / 3) * Real.pi * (d / 2) ^ 3 * ρ) *
        (1 - ablation_spec d) * (v * 1000) ^ 2 := by
      have h1 : 0 < 0.5 * ((4 / 3) * Real.pi * (d / 2) ^ 3 * ρ) := by positivity
      exact mul_pos (mul_pos h1 habl) (by positivity)
    have hsin : Real.sin (θ₁ * (Real.pi / 180)) < Real.sin (θ₂ * (Real.pi / 180)) := by
      apply Real.sin_lt_sin_of_lt_of_le_pi_div_two
      · nlinarith [mul_pos hθ₁ hpi]
      · nlinarith [mul_nonneg (sub_nonneg.mpr hθ₂) hpi.le]
      · nlinarith
    exact mul_lt_mul_of_pos_left hsin hC

/-- C2 witness: the 100 m rock preset at angles 45 and 90. -/
theorem C2_energy_formula_witness :
    ((calculate_impact_energy 100 2600 20 45).1 =
      0.5 * ((4 / 3) * Real.pi * (100 / 2) ^ 3 * 2600) * (1 - ablation_spec 100) *
        (20 * 1000) ^ 2 * Real.sin (45 * (Real.pi / 180))) ∧
    ((calculate_impact_energy 100 2600 20 90).1 =
      0.5 * ((4 / 3) * Real.pi * (100 / 2) ^ 3 * 2600) * (1 - ablation_spec 100) *
        (20 * 1000) ^ 2) ∧
    (calculate_impact_energy 100 2600 20 45).1 < (calculate_impact_energy 100 2600 20 90).1 :=
  C2_energy_formula 100 2600 20 45 90 (by norm_num) (by norm_num) (by norm_num)
    (by norm_num) (by norm_num) (by norm_num)

/-- C7: holding diameter and target type fixed, the crater diameter is
monotonically non-decreasing in velocity and in projectile density
(stated jointly: both may increase at once). -/
theorem C7_crater_monotone (size ρ₁ ρ₂ v₁ v₂ : ℝ) (w : Bool) (hs : 0 < size)
    (hρ₁ : 0 < ρ₁) (hρ : ρ₁ ≤ ρ₂) (hv₁ : 0 < v₁) (hv : v₁ ≤ v₂) :
    (calculate_crater_size size ρ₁ v₁ w).1 ≤ (calculate_crater_size size ρ₂ v₂ w).1 := by
  have hρ₂ : 0 < ρ₂ := lt_of_lt_of_le hρ₁ hρ
  have hv₂ : 0 < v₂ := lt_of_lt_of_le hv₁ hv
  have hA : ∀ td : ℝ, 0 < td →
      (ρ₁ / td) ^ (0.44 : ℝ) ≤ (ρ₂ / td) ^ (0.44 : ℝ) := fun td htd =>
    Real.rpow_le_rpow (by positivity) ((div_le_div_iff_of_pos_right htd).mpr hρ)
      (by norm_num)
  have hsum : (0 : ℝ) ≤ v₁ + v₂ := by linarith
  have hnum : (v₁ * 1000) ^ 2 ≤ (v₂ * 1000) ^ 2 := by
    nlinarith [mul_nonneg (sub_nonneg.mpr hv) hsum]
  have hB : ((v₁ * 1000) ^ 2 / (9.81 * (size / 2) * 2)) ^ (0.22 : ℝ) ≤
      ((v₂ * 1000) ^ 2 / (9.81 * (size / 2) * 2)) ^ (0.22 : ℝ) :=
    Real.rpow_le_rpow (by positivity)
      ((div_le_div_iff_of_pos_right (by positivity)).mpr hnum) (by norm_num)
  cases w <;>
    simp only [calculate_crater_size, Bool.false_eq_true, ↓reduceIte]
  · apply craterFinal_mono
    apply mul_le_mul_of_nonneg_right _ (by positivity)
    exact mul_le_mul (mul_le_mul_of_nonneg_left (hA 2700 (by norm_num)) (by positivity))
      hB (by positivity) (by positivity)
  · apply craterFinal_mono
    exact mul_le_mul (mul_le_mul_of_nonneg_left (hA 1000 (by norm_num)) (by positivity))
      hB (by positivity) (by positivity)

/-- C7 witness: the monotonicity at a concrete pair of inputs. -/
theorem C7_crater_monotone_witness :
    (calculate_crater_size 2 1000 1 false).1 ≤ (calculate_crater_size 2 2000 2 false).1 :=
  C7_crater_monotone 2 1000 2000 1 2 false (by norm_num) (by norm_num) (by norm_num)
    (by norm_num) (by norm_num)

/-- C9: the entry angle input has no effect on the API handler's computed
results; two requests identical except for the angle yield identical
`results` blocks. -/
theorem C9_angle_noninterference (d v ρ θ₁ θ₂ : ℝ) (loc : ℝ × ℝ) :
    (simulate_impact ⟨d, v, θ₁, ρ, loc⟩).results =
      (simulate_impact ⟨d, v, θ₂, ρ, loc⟩).results := rfl

/-- Helper: Python `int()` truncation agrees with the floor on nonnegative
values. -/
theorem pytrunc_of_nonneg {x : ℝ} (h : 0 ≤ x) : pytrunc x = ⌊x⌋ :=
  if_neg (not_lt.mpr h)

/-- C8 counterexample: at overpressure radius 2 km and population density
1, the affected population returned by the code (truncation of `4 * pi`,
which is 12) differs from `round (pi * 2 ^ 2 * 1) = 13` demanded by the
claim. -/
theorem C8_round_counterexample :
    (estimate_casualties 2 1).2 ≠ round (Real.pi * 2 ^ 2 * 1) := by
  have hl := Real.pi_gt_d6
  have hu := Real.pi_lt_d2
  have h0 : (0 : ℝ) ≤ Real.pi * 2 ^ 2 * 1 := by positivity
  have h1 : (estimate_casualties 2 1).2 = 12 := by
    simp only [estimate_casualties]
    rw [pytrunc_of_nonneg h0, Int.floor_eq_iff]
    push_cast
    constructor <;> nlinarith
  have h2 : round (Real.pi * 2 ^ 2 * 1) = 13 := by
    rw [round_eq, Int.floor_eq_iff]
    push_cast
    constructor <;> nlinarith
  rw [h1, h2]
  decide

/-- C8 (amended): the casualty stage truncates rather than rounds:
`affected_population = floor(pi * radius^2 * density)` and
`estimated_casualties = floor(affected_population * 0.5)`; both are
nonnegative and the casualties never exceed the affected population. -/
theorem C8_casualties_floor (r ρ : ℝ) (hr : 0 ≤ r) (hρ : 0 ≤ ρ) :
    (estimate_casualties r ρ).2 = ⌊Real.pi * r ^ 2 * ρ⌋ ∧
    (estimate_casualties r ρ).1 = ⌊((⌊Real.pi * r ^ 2 * ρ⌋ : ℝ)) * 0.5⌋ ∧
    0 ≤ (estimate_casualties r ρ).2 ∧ 0 ≤ (estimate_casualties r ρ).1 ∧
    (estimate_casualties r ρ).1 ≤ (estimate_casualties r ρ).2 := by
  have h0 : (0 : ℝ) ≤ Real.pi * r ^ 2 * ρ := by positivity
  have hAnn : (0 : ℤ) ≤ ⌊Real.pi * r ^ 2 * ρ⌋ := Int.floor_nonneg.mpr h0
  have hcast : (0 : ℝ) ≤ ((⌊Real.pi * r ^ 2 * ρ⌋ : ℝ)) * 0.5 :=
    mul_nonneg (by exact_mod_cast hAnn) (by norm_num)
  have hA : (estimate_casualties r ρ).2 = ⌊Real.pi * r ^ 2 * ρ⌋ := by
    simp only [estimate_casualties]
    exact pytrunc_of_nonneg h0
  have hE : (estimate_casualties r ρ).1 = ⌊((⌊Real.pi * r ^ 2 * ρ⌋ : ℝ)) * 0.5⌋ := by
    simp only [estimate_casualties]
    rw [pytrunc_of_nonneg h0, pytrunc_of_nonneg hcast]
  refine ⟨hA, hE, ?_, ?_, ?_⟩
  · rw [hA]; exact hAnn
  · rw [hE]; exact Int.floor_nonneg.mpr hcast
  · rw [hA, hE]
    calc ⌊((⌊Real.pi * r ^ 2 * ρ⌋ : ℝ)) * 0.5⌋
        ≤ ⌊((⌊Real.pi * r ^ 2 * ρ⌋ : ℝ))⌋ := by
          apply Int.floor_mono
          have hc : (0 : ℝ) ≤ ((⌊Real.pi * r ^ 2 * ρ⌋ : ℝ)) := by exact_mod_cast hAnn
          linarith
      _ = ⌊Real.pi * r ^ 2 * ρ⌋ := Int.floor_intCast _

/-- C8 witness: the amended statement at radius 2 km and density 1. -/
theorem C8_casualties_floor_witness :
    (estimate_casualties 2 1).2 = ⌊Real.pi * 2 ^ 2 * 1⌋ ∧
    (estimate_casualties 2 1).1 = ⌊((⌊Real.pi * 2 ^ 2 * 1⌋ : ℝ)) * 0.5⌋ ∧
    0 ≤ (estimate_casualties 2 1).2 ∧ 0 ≤ (estimate_casualties 2 1).1 ∧
    (estimate_casualties 2 1).1 ≤ (estimate_casualties 2 1).2 :=
  C8_casualties_floor 2 1 (by norm_num) (by norm_num)

/-- C1 counterexample: the claim that every request with zero diameter or
zero velocity is rejected with an error response is false: the request
with diameter 0 produces a normal 200 response. -/
theorem C1_rejection_counterexample :
    ¬ (∀ rq : SimRequest, (rq.diameter = 0 ∨ rq.velocity = 0) →
        ∃ msg, do_POST_sim rq = ApiResponse.err msg) := by
  intro h
  obtain ⟨msg, hmsg⟩ := h ⟨0, 20, 45, 2600, (40.7128, -74.0060)⟩ (Or.inl rfl)
  simp only [do_POST_sim] at hmsg
  exact ApiResponse.noConfusion hmsg

/-- C1 (amended): the handler performs no input validation: a request with
diameter 0 (or velocity 0) flows through every stage and yields a normal
response whose derived results are all zero, classified
"Minimal damage". -/
theorem C1_no_validation_zero_result :
    do_POST_sim ⟨0, 20, 45, 2600, (40.7128, -74.0060)⟩ =
      ApiResponse.ok (simulate_impact ⟨0, 20, 45, 2600, (40.7128, -74.0060)⟩) ∧
    (simulate_impact ⟨0, 20, 45, 2600, (40.7128, -74.0060)⟩).results.mass_kg = 0 ∧
    (simulate_impact ⟨0, 20, 45, 2600, (40.7128, -74.0060)⟩).results.kinetic_energy_joules = 0 ∧
    (simulate_impact ⟨0, 20, 45, 2600, (40.7128, -74.0060)⟩).results.energy_megatons = 0 ∧
    (simulate_impact ⟨0, 20, 45, 2600, (40.7128, -74.0060)⟩).results.crater_diameter_m = 0 ∧
    (simulate_impact ⟨0, 20, 45, 2600, (40.7128, -74.0060)⟩).results.damage_radius_km = 0 ∧
    (simulate_impact ⟨0, 20, 45, 2600, (40.7128, -74.0060)⟩).results.affected_population = 0 ∧
    (simulate_impact ⟨0, 20, 45, 2600, (40.7128, -74.0060)⟩).results.estimated_casualties = 0 ∧
    (simulate_impact ⟨0, 20, 45, 2600, (40.7128, -74.0060)⟩).results.impact_classification =
      "Minimal damage" ∧
    (simulate_impact ⟨100, 0, 45, 2600, (40.7128, -74.0060)⟩).results.kinetic_energy_joules = 0 ∧
    (simulate_impact ⟨100, 0, 45, 2600, (40.7128, -74.0060)⟩).results.energy_megatons = 0 ∧
    (simulate_impact ⟨100, 0, 45, 2600, (40.7128, -74.0060)⟩).results.impact_classification =
      "Minimal damage" := by
  refine ⟨rfl, ?_⟩
  norm_num [simulate_impact, classify_impact]

/-- Helper: the Chicxulub-preset request yields between 10^7 and 10^8
megatons through the API handler. -/
theorem chicxulub_megatons_bounds :
    10000000 ≤
      (simulate_impact ⟨10000, 20, 60, 2600, (40.7128, -74.0060)⟩).results.energy_megatons ∧
    (simulate_impact ⟨10000, 20, 60, 2600, (40.7128, -74.0060)⟩).results.energy_megatons <
      100000000 := by
  simp only [simulate_impact]
  constructor
  · rw [div_div, le_div_iff₀ (by norm_num)]
    nlinarith [Real.pi_gt_three]
  · rw [div_div, div_lt_iff₀ (by norm_num)]
    nlinarith [Real.pi_lt_d2]

/-- Helper: the Chicxulub-preset request is classified
"Global climate effects" by the API handler. -/
theorem chicxulub_classification :
    (simulate_impact ⟨10000, 20, 60, 2600, (40.7128, -74.0060)⟩).results.impact_classification =
      "Global climate effects" := by
  obtain ⟨h1, h2⟩ := chicxulub_megatons_bounds
  have hcl : (simulate_impact
        ⟨10000, 20, 60, 2600, (40.7128, -74.0060)⟩).results.impact_classification =
      classify_impact ((simulate_impact
        ⟨10000, 20, 60, 2600, (40.7128, -74.0060)⟩).results.energy_megatons) := rfl
  rw [hcl]
  simp only [classify_impact]
  rw [if_neg (not_lt.mpr (by linarith)), if_neg (not_lt.mpr (by linarith)),
    if_neg (not_lt.mpr (by linarith)), if_neg (not_lt.mpr (by linarith)),
    if_neg (not_lt.mpr (by linarith)), if_pos h2]

/-- C3 counterexample: the Chicxulub preset (diameter 10000 m, velocity
20 km/s, angle 60, density 2600) yields fewer than 10^8 megatons and is
not classified "Mass extinction event". -/
theorem C3_chicxulub_counterexample :
    (simulate_impact ⟨10000, 20, 60, 2600, (40.7128, -74.0060)⟩).results.energy_megatons <
      100000000 ∧
    (simulate_impact ⟨10000, 20, 60, 2600, (40.7128, -74.0060)⟩).results.impact_classification ≠
      "Mass extinction event" := by
  refine ⟨chicxulub_megatons_bounds.2, ?_⟩
  rw [chicxulub_classification]
  decide

/-- C3 (amended): the Chicxulub preset yields energy_megatons between 10^7
and 10^8 (about 6.5 * 10^7) and the classification
"Global climate effects". -/
theorem C3_chicxulub_result :
    10000000 ≤
      (simulate_impact ⟨10000, 20, 60, 2600, (40.7128, -74.0060)⟩).results.energy_megatons ∧
    (simulate_impact ⟨10000, 20, 60, 2600, (40.7128, -74.0060)⟩).results.energy_megatons <
      100000000 ∧
    (simulate_impact ⟨10000, 20, 60, 2600, (40.7128, -74.0060)⟩).results.impact_classification =
      "Global climate effects" :=
  ⟨chicxulub_megatons_bounds.1, chicxulub_megatons_bounds.2, chicxulub_classification⟩

end

end Meteor
